import Mathlib

/-!
Shallow embedding of the restic backup wrapper (`cmd/main.go`).

The program orchestrates one backup run: acquire a non-blocking file lock,
check that the restic executable resolves and the host is on AC power,
fetch five secrets from the macOS keychain into the process environment,
run `restic backup`, optionally `restic forget --prune`, push CloudWatch
metrics and log a completion event.

External effects (file lock, subprocesses, keychain, CloudWatch) are
modelled by an oracle `World` describing each external call's outcome.
Go control flow is embedded faithfully; in particular `os.Exit` and
`log.Fatal` terminate the process WITHOUT running deferred calls, which
the model records in `RunOutcome.viaOsExit` / `RunOutcome.deferredUnlockRan`.
-/

namespace ResticWrapper

/-- Log levels used by the program (logrus). -/
inductive Level
  | info
  | warn
  | error
  | fatal
deriving DecidableEq

/-- One structured log event: level, `WithFields` key/value pairs, message. -/
structure LogEvent where
  level : Level
  fields : List (String × String)
  msg : String
deriving DecidableEq

/-- The process environment, as a partial map from variable name to value. -/
def Env : Type := String → Option String

/-- `os.Setenv`: point update of the process environment. -/
def setenv (e : Env) (k v : String) : Env :=
  fun q => if q = k then some v else e q

/-- Outcome of one external command run whose stdout/stderr are captured
separately (`exec.Cmd` with `Stdout`/`Stderr` buffers): `ok` is whether
`Run` returned nil, `errMsg` describes the error otherwise. -/
structure CmdResult where
  ok : Bool
  errMsg : String
  stdout : String
  stderr : String
deriving DecidableEq

/-- Outcome of one external command run with combined output
(`cmd.CombinedOutput`, also used for `pmset`): `ok` is whether the call
returned a nil error (a context timeout or a non-zero exit both make it
false). -/
structure SecCmd where
  ok : Bool
  errMsg : String
  output : String
deriving DecidableEq

/-- Result of `flock.TryLock`: acquired, held elsewhere, or an error. -/
inductive LockResult
  | acquired
  | busy
  | lockError (msg : String)
deriving DecidableEq

/-- The configuration loaded by viper into `appConfig` (fields used by the
run logic). -/
structure Config where
  backupDir : String
  lockFile : String
  logFile : String
  resticPath : String
  filesFrom : String
  excludeFile : String
  s3Storage : String
  hostName : String
  securityService : String
  requireAcPower : Bool
  cleanupOldBackups : Bool
deriving DecidableEq

/-- Oracle for all external effects of one run. -/
structure World where
  lockResult : LockResult
  lookPathOk : Bool
  pmset : SecCmd
  secRegion : SecCmd
  secAccessKeyId : SecCmd
  secSecretAccessKey : SecCmd
  secRepository : SecCmd
  secPassword : SecCmd
  backupResult : CmdResult
  forgetResult : CmdResult
  awsCfgOk : Bool
  awsCfgErr : String
  putMetricOk : Bool
  putMetricErr : String
  durationStr : String
deriving DecidableEq

/-- `strings.Contains`. -/
def strContains (s pat : String) : Bool :=
  s.toList.tails.any (fun t => pat.toList.isPrefixOf t)

/-- `strings.TrimSpace` on the character list: drop whitespace from both
ends. -/
def trimChars (cs : List Char) : List Char :=
  ((cs.dropWhile Char.isWhitespace).reverse.dropWhile Char.isWhitespace).reverse

/-- `strings.TrimSpace` (and the equivalent `bytes.TrimSpace`). -/
def trimSpace (s : String) : String :=
  String.mk (trimChars s.data)

/-- `strings.Split(cs, "\n")` on a list of characters: split at every
newline; a list with no newline yields one piece, so the result is never
empty. -/
def splitNewlines : List Char → List (List Char)
  | [] => [[]]
  | c :: rest =>
    match splitNewlines rest with
    | [] => [[]]
    | line :: more =>
      if c = '\n' then [] :: line :: more
      else (c :: line) :: more

/-- `strings.Split(strings.TrimSpace(s), "\n")` with the empty lines that the
caller skips already removed. -/
def nonEmptyLines (s : String) : List String :=
  ((splitNewlines (trimChars s.data)).map (fun cs => String.mk cs)).filter (fun l => l ≠ "")

/-- `isOnPower`: run `pmset`, fail on command error, otherwise scan the
trimmed output for the substring "AC Power". -/
def isOnPower (r : SecCmd) : Except String Bool :=
  if r.ok then Except.ok (strContains (trimSpace r.output) "AC Power")
  else Except.error ("failed to execute pmset: " ++ r.errMsg)

/-- The `log.Fatal` event emitted when a keychain fetch fails. -/
def fatalFetchEvent (service errMsg : String) : LogEvent :=
  ⟨Level.fatal, [("cmd", "security"), ("err", errMsg), ("srv", service)],
    "cannot get security data"⟩

/-- `getSecurityData`: run `security find-generic-password` with a 1-minute
timeout; a nil error yields the trimmed combined output, any error is a
`log.Fatal` (modelled as the `Except.error` carrying the fatal log event). -/
def getSecurityData (service : String) (_account : String) (r : SecCmd) :
    Except LogEvent String :=
  if r.ok then Except.ok (trimSpace r.output)
  else Except.error (fatalFetchEvent service r.errMsg)

/-- A per-line log event of `runResticCommand`, tagged with the executable
path and `args[0]` as the operation. -/
def lineEvent (lvl : Level) (path op l : String) : LogEvent :=
  ⟨lvl, [("cmd", path), ("operation", op)], l⟩

/-- The summary error event `runResticCommand` emits when the command fails. -/
def execFailEvent (path op errMsg : String) : LogEvent :=
  ⟨Level.error, [("cmd", path), ("operation", op), ("err", errMsg)],
    "failed to execute the command"⟩

/-- `runResticCommand`: run the restic executable, capturing stdout and
stderr. On a failing exit each non-empty stderr line is logged at error
level and a summary error event is emitted; on a zero exit each non-empty
stdout line is logged at info level. The Go code indexes `args[0]` for the
"operation" field; `none` models the out-of-bounds panic, which occurs on
any failing run with empty `args` and on any succeeding run with empty
`args` and some non-empty stdout line. The returned `Bool` is whether the
command succeeded (`Run` returned nil). -/
def runResticCommand (path : String) (args : List String) (r : CmdResult) :
    Option (List LogEvent × Bool) :=
  if r.ok then
    let outLines := nonEmptyLines r.stdout
    if outLines.isEmpty then some ([], true)
    else
      match args.head? with
      | none => none
      | some op => some (outLines.map (fun l => lineEvent Level.info path op l), true)
  else
    match args.head? with
    | none => none
    | some op =>
      some ((nonEmptyLines r.stderr).map (fun l => lineEvent Level.error path op l)
        ++ [execFailEvent path op r.errMsg], false)

/-- `sendAwsMetrics`: load the AWS config and push the two metric points;
returns the log events it emits and the error it returns (`none` on
success). -/
def sendAwsMetrics (w : World) : List LogEvent × Option String :=
  if w.awsCfgOk then
    if w.putMetricOk then
      ([⟨Level.info, [], "Sent backup metrics to CloudWatch"⟩], none)
    else
      ([⟨Level.error, [("err", w.putMetricErr)], "cannot put metric data to CloudWatch"⟩],
        some w.putMetricErr)
  else
    ([⟨Level.error, [("err", w.awsCfgErr)], "cannot load AWS SDK config"⟩],
      some w.awsCfgErr)

/-- Result of `setupEnv`: either the updated environment, or a fatal abort
(the log event of the failing fetch, plus how many keychain fetches had been
started, the failing one included). -/
inductive SetupResult
  | ok (e : Env)
  | fatal (ev : LogEvent) (callsMade : Nat)

/-- `setupEnv`: fetch the five secrets in source order and set the five
environment variables; any fetch failure is a `log.Fatal` that aborts the
process. -/
def setupEnv (cfg : Config) (w : World) (e : Env) : SetupResult :=
  match getSecurityData cfg.securityService "aws-region" w.secRegion with
  | Except.error ev => SetupResult.fatal ev 1
  | Except.ok v1 =>
    let e1 := setenv e "AWS_DEFAULT_REGION" v1
    match getSecurityData cfg.securityService "aws-access-key-id" w.secAccessKeyId with
    | Except.error ev => SetupResult.fatal ev 2
    | Except.ok v2 =>
      let e2 := setenv e1 "AWS_ACCESS_KEY_ID" v2
      match getSecurityData cfg.securityService "aws-secret-access-key" w.secSecretAccessKey with
      | Except.error ev => SetupResult.fatal ev 3
      | Except.ok v3 =>
        let e3 := setenv e2 "AWS_SECRET_ACCESS_KEY" v3
        match getSecurityData cfg.securityService "repository" w.secRepository with
        | Except.error ev => SetupResult.fatal ev 4
        | Except.ok v4 =>
          let e4 := setenv e3 "RESTIC_REPOSITORY" v4
          match getSecurityData cfg.securityService "password" w.secPassword with
          | Except.error ev => SetupResult.fatal ev 5
          | Except.ok v5 => SetupResult.ok (setenv e4 "RESTIC_PASSWORD" v5)

/-- `filepath.Join` on two cleaned relative components. -/
def joinPath (a b : String) : String := a ++ "/" ++ b

/-- The argument list of the `restic backup` invocation. -/
def backupArgs (cfg : Config) : List String :=
  ["backup", "-o", "s3.storage-class=" ++ cfg.s3Storage,
   "--files-from", joinPath cfg.backupDir cfg.filesFrom,
   "--exclude-file", joinPath cfg.backupDir cfg.excludeFile]

/-- The argument list of the `restic forget` invocation. -/
def forgetArgs : List String :=
  ["forget", "-q", "--prune",
   "--keep-hourly", "4", "--keep-daily", "7", "--keep-weekly", "5",
   "--keep-monthly", "12", "--keep-yearly", "5", "--keep-tag", "nodelete"]

/-- Observable outcome of one `main` run.

`viaOsExit` is true when the process left through `os.Exit`/`log.Fatal`
(deferred calls skipped); `deferredUnlockRan` is whether the deferred
`fileLock.Unlock()` executed before the process ended; `invocations` is the
list of restic argument lists actually spawned, `envPassed` the process
environment handed to those subprocesses (`cmd.Env = os.Environ()`);
`secretsFetched` counts keychain fetches started. -/
structure RunOutcome where
  exitCode : Nat
  viaOsExit : Bool
  panicked : Bool
  lockAcquired : Bool
  deferredUnlockRan : Bool
  events : List LogEvent
  invocations : List (List String)
  envPassed : Option Env
  secretsFetched : Nat
  metricsAttempted : Bool
  metricsPushed : Bool

/-- The whole of `main`, as a function of the external-effect oracle and the
initial process environment. -/
def main (cfg : Config) (w : World) (env0 : Env) : RunOutcome :=
  match w.lockResult with
  | LockResult.lockError msg =>
    { exitCode := 1, viaOsExit := true, panicked := false, lockAcquired := false,
      deferredUnlockRan := false,
      events := [⟨Level.error, [("err", msg)], "cannot lock the lock file"⟩],
      invocations := [], envPassed := none, secretsFetched := 0,
      metricsAttempted := false, metricsPushed := false }
  | LockResult.busy =>
    { exitCode := 0, viaOsExit := false, panicked := false, lockAcquired := false,
      deferredUnlockRan := false,
      events := [⟨Level.warn, [], "Another instance of the program is already running. Exiting."⟩],
      invocations := [], envPassed := none, secretsFetched := 0,
      metricsAttempted := false, metricsPushed := false }
  | LockResult.acquired =>
    -- defer fileLock.Unlock() is registered here
    if w.lookPathOk then
      match isOnPower w.pmset with
      | Except.error msg =>
        { exitCode := 0, viaOsExit := false, panicked := false, lockAcquired := true,
          deferredUnlockRan := true,
          events := [⟨Level.error, [("err", msg)],
            "cannot check if the system is running on AC power"⟩],
          invocations := [], envPassed := none, secretsFetched := 0,
          metricsAttempted := false, metricsPushed := false }
      | Except.ok isAcPower =>
        if cfg.requireAcPower && !isAcPower then
          { exitCode := 0, viaOsExit := false, panicked := false, lockAcquired := true,
            deferredUnlockRan := true,
            events := [⟨Level.warn, [], "The system is not running on AC power. Skipping backup."⟩],
            invocations := [], envPassed := none, secretsFetched := 0,
            metricsAttempted := false, metricsPushed := false }
        else
          match setupEnv cfg w env0 with
          | SetupResult.fatal ev n =>
            { exitCode := 1, viaOsExit := true, panicked := false, lockAcquired := true,
              deferredUnlockRan := false,
              events := [ev], invocations := [], envPassed := none,
              secretsFetched := n, metricsAttempted := false, metricsPushed := false }
          | SetupResult.ok env1 =>
            match runResticCommand cfg.resticPath (backupArgs cfg) w.backupResult with
            | none =>
              { exitCode := 2, viaOsExit := false, panicked := true, lockAcquired := true,
                deferredUnlockRan := true,
                events := [], invocations := [backupArgs cfg], envPassed := some env1,
                secretsFetched := 5, metricsAttempted := false, metricsPushed := false }
            | some (blogs, bok) =>
              if bok then
                match
                  (if cfg.cleanupOldBackups then
                    match runResticCommand cfg.resticPath forgetArgs w.forgetResult with
                    | none => none
                    | some (flogs, fok) =>
                      some (flogs ++
                        (if fok then [] else
                          [⟨Level.error, [("cmd", cfg.resticPath), ("command", "forget")],
                            "Forget failed"⟩]),
                        [forgetArgs])
                  else some ([], []))
                with
                | none =>
                  { exitCode := 2, viaOsExit := false, panicked := true, lockAcquired := true,
                    deferredUnlockRan := true,
                    events := blogs, invocations := [backupArgs cfg, forgetArgs],
                    envPassed := some env1, secretsFetched := 5,
                    metricsAttempted := false, metricsPushed := false }
                | some (flogs, finvs) =>
                  let mres := sendAwsMetrics w
                  { exitCode := 0, viaOsExit := false, panicked := false, lockAcquired := true,
                    deferredUnlockRan := true,
                    events := blogs ++ flogs ++ mres.1 ++
                      (match mres.2 with
                        | some m => [⟨Level.error, [("err", m)],
                            "cannot send backup metrics to CloudWatch"⟩]
                        | none => []) ++
                      [⟨Level.info, [("duration", w.durationStr)],
                        "Backup completed successfully"⟩],
                    invocations := backupArgs cfg :: finvs, envPassed := some env1,
                    secretsFetched := 5, metricsAttempted := true,
                    metricsPushed := mres.2.isNone }
              else
                { exitCode := 1, viaOsExit := true, panicked := false, lockAcquired := true,
                  deferredUnlockRan := false,
                  events := blogs ++
                    [⟨Level.error, [("cmd", cfg.resticPath), ("command", "backup")],
                      "Backup failed"⟩],
                  invocations := [backupArgs cfg], envPassed := some env1,
                  secretsFetched := 5, metricsAttempted := false, metricsPushed := false }
    else
      -- exec.LookPath failed: log and return (exit status 0)
      { exitCode := 0, viaOsExit := false, panicked := false, lockAcquired := true,
        deferredUnlockRan := true,
        events := [⟨Level.error, [("cmd", cfg.resticPath)], "cannot find the restic command"⟩],
        invocations := [], envPassed := none, secretsFetched := 0,
        metricsAttempted := false, metricsPushed := false }

/-- The environment produced by a fully successful `setupEnv`: the five
fixed variables set, in source order, to the trimmed keychain outputs. -/
def envAfterSetup (w : World) (e : Env) : Env :=
  setenv (setenv (setenv (setenv (setenv e
    "AWS_DEFAULT_REGION" (trimSpace w.secRegion.output))
    "AWS_ACCESS_KEY_ID" (trimSpace w.secAccessKeyId.output))
    "AWS_SECRET_ACCESS_KEY" (trimSpace w.secSecretAccessKey.output))
    "RESTIC_REPOSITORY" (trimSpace w.secRepository.output))
    "RESTIC_PASSWORD" (trimSpace w.secPassword.output)

/-! ### Concrete fixtures used for witnesses and counterexamples -/

/-- A small initial process environment. -/
def env0A : Env := fun k => if k = "HOME" then some "/root" else none

/-- A concrete configuration (the README's defaults, cleanup enabled). -/
def cfgA : Config :=
  { backupDir := "/root/.restic_backup", lockFile := ".restic_backup_lock",
    logFile := "restic_backup.log", resticPath := "/usr/local/bin/restic",
    filesFrom := "backup.txt", excludeFile := "exclude.txt",
    s3Storage := "STANDARD_IA", hostName := "localhost",
    securityService := "restic_backup", requireAcPower := true,
    cleanupOldBackups := true }

/-- A keychain/`pmset` call that succeeds with the given output. -/
def okSec (v : String) : SecCmd := { ok := true, errMsg := "", output := v }

/-- A fully successful run: lock free, executable found, on AC power, all
five secrets resolve, backup and forget succeed, metrics push succeeds. -/
def worldA : World :=
  { lockResult := LockResult.acquired, lookPathOk := true,
    pmset := okSec "Now drawing from AC Power",
    secRegion := okSec "eu-west-1", secAccessKeyId := okSec "AKIAEXAMPLE",
    secSecretAccessKey := okSec "SECRETEXAMPLE", secRepository := okSec "s3:bucket/repo",
    secPassword := okSec "pw123",
    backupResult := { ok := true, errMsg := "", stdout := "processed 10 files", stderr := "" },
    forgetResult := { ok := true, errMsg := "", stdout := "", stderr := "" },
    awsCfgOk := true, awsCfgErr := "", putMetricOk := true, putMetricErr := "",
    durationStr := "2m3s" }

/-- Same run but the backup command exits non-zero with one stderr line. -/
def worldBackupFail : World :=
  { worldA with backupResult :=
      { ok := false, errMsg := "exit status 2", stdout := "", stderr := "repository locked" } }

/-- Same run but the restic executable does not resolve on the search path. -/
def worldNoExe : World := { worldA with lookPathOk := false }

/-- Same run but the lock is already held by another instance. -/
def worldBusy : World := { worldA with lockResult := LockResult.busy }

/-- Same run but acquiring the lock fails with an error. -/
def worldLockErr : World :=
  { worldA with lockResult := LockResult.lockError "permission denied" }

/-- Same run but the host is on battery power. -/
def worldOnBattery : World :=
  { worldA with pmset := okSec "Now drawing from Battery Power" }

/-- Same run but the keychain query for the repository fails. -/
def worldSecretFail : World :=
  { worldA with secRepository := { ok := false, errMsg := "exit status 44", output := "" } }

/-- Same run but the keychain query for the password succeeds with empty
output. -/
def worldEmptySecret : World := { worldA with secPassword := okSec "" }

/-- Same run but the forget command exits non-zero. -/
def worldForgetFail : World :=
  { worldA with forgetResult :=
      { ok := false, errMsg := "exit status 1", stdout := "", stderr := "prune failed" } }

/-- The environment `setupEnv` produces on `worldA` starting from `env0A`. -/
def envAfterA : Env := envAfterSetup worldA env0A

/-! ### Helper lemmas -/

lemma lineEvent_injective (lvl : Level) (path op : String) :
    Function.Injective (lineEvent lvl path op) := by
  intro a b h
  simpa [lineEvent] using h

lemma runResticCommand_cons_ok (path op : String) (rest : List String) (r : CmdResult)
    (h : r.ok = true) :
    runResticCommand path (op :: rest) r =
      some ((nonEmptyLines r.stdout).map (lineEvent Level.info path op), true) := by
  by_cases hemp : nonEmptyLines r.stdout = []
  · simp [runResticCommand, h, hemp]
  · simp [runResticCommand, h, hemp]

lemma runResticCommand_cons_err (path op : String) (rest : List String) (r : CmdResult)
    (h : r.ok = false) :
    runResticCommand path (op :: rest) r =
      some ((nonEmptyLines r.stderr).map (lineEvent Level.error path op)
        ++ [execFailEvent path op r.errMsg], false) := by
  simp [runResticCommand, h]

lemma run_backup_ok (cfg : Config) (r : CmdResult) (h : r.ok = true) :
    runResticCommand cfg.resticPath (backupArgs cfg) r =
      some ((nonEmptyLines r.stdout).map (lineEvent Level.info cfg.resticPath "backup"),
        true) :=
  runResticCommand_cons_ok _ _ _ _ h

lemma run_backup_err (cfg : Config) (r : CmdResult) (h : r.ok = false) :
    runResticCommand cfg.resticPath (backupArgs cfg) r =
      some ((nonEmptyLines r.stderr).map (lineEvent Level.error cfg.resticPath "backup")
        ++ [execFailEvent cfg.resticPath "backup" r.errMsg], false) :=
  runResticCommand_cons_err _ _ _ _ h

lemma run_forget_ok (cfg : Config) (r : CmdResult) (h : r.ok = true) :
    runResticCommand cfg.resticPath forgetArgs r =
      some ((nonEmptyLines r.stdout).map (lineEvent Level.info cfg.resticPath "forget"),
        true) :=
  runResticCommand_cons_ok _ _ _ _ h

lemma run_forget_err (cfg : Config) (r : CmdResult) (h : r.ok = false) :
    runResticCommand cfg.resticPath forgetArgs r =
      some ((nonEmptyLines r.stderr).map (lineEvent Level.error cfg.resticPath "forget")
        ++ [execFailEvent cfg.resticPath "forget" r.errMsg], false) :=
  runResticCommand_cons_err _ _ _ _ h

lemma setupEnv_ok_of (cfg : Config) (w : World) (e : Env)
    (h1 : w.secRegion.ok = true) (h2 : w.secAccessKeyId.ok = true)
    (h3 : w.secSecretAccessKey.ok = true) (h4 : w.secRepository.ok = true)
    (h5 : w.secPassword.ok = true) :
    setupEnv cfg w e = SetupResult.ok (envAfterSetup w e) := by
  simp [setupEnv, getSecurityData, envAfterSetup, h1, h2, h3, h4, h5]

lemma setupEnv_fatal_of (cfg : Config) (w : World) (e : Env)
    (h : (w.secRegion.ok && w.secAccessKeyId.ok && w.secSecretAccessKey.ok &&
          w.secRepository.ok && w.secPassword.ok) = false) :
    ∃ ev n, setupEnv cfg w e = SetupResult.fatal ev n := by
  cases h1 : w.secRegion.ok with
  | false =>
    exact ⟨fatalFetchEvent cfg.securityService w.secRegion.errMsg, 1,
      by simp [setupEnv, getSecurityData, h1]⟩
  | true =>
    cases h2 : w.secAccessKeyId.ok with
    | false =>
      exact ⟨fatalFetchEvent cfg.securityService w.secAccessKeyId.errMsg, 2,
        by simp [setupEnv, getSecurityData, h1, h2]⟩
    | true =>
      cases h3 : w.secSecretAccessKey.ok with
      | false =>
        exact ⟨fatalFetchEvent cfg.securityService w.secSecretAccessKey.errMsg, 3,
          by simp [setupEnv, getSecurityData, h1, h2, h3]⟩
      | true =>
        cases h4 : w.secRepository.ok with
        | false =>
          exact ⟨fatalFetchEvent cfg.securityService w.secRepository.errMsg, 4,
            by simp [setupEnv, getSecurityData, h1, h2, h3, h4]⟩
        | true =>
          cases h5 : w.secPassword.ok with
          | false =>
            exact ⟨fatalFetchEvent cfg.securityService w.secPassword.errMsg, 5,
              by simp [setupEnv, getSecurityData, h1, h2, h3, h4, h5]⟩
          | true => simp [h1, h2, h3, h4, h5] at h

lemma setupEnv_ok_elim (cfg : Config) (w : World) (e : Env) (env1 : Env)
    (h : setupEnv cfg w e = SetupResult.ok env1) :
    env1 = envAfterSetup w e := by
  cases hall : (w.secRegion.ok && w.secAccessKeyId.ok && w.secSecretAccessKey.ok &&
      w.secRepository.ok && w.secPassword.ok) with
  | false =>
    obtain ⟨ev, n, hf⟩ := setupEnv_fatal_of cfg w e hall
    rw [hf] at h
    exact absurd h (by simp)
  | true =>
    simp only [Bool.and_eq_true] at hall
    obtain ⟨⟨⟨⟨a1, a2⟩, a3⟩, a4⟩, a5⟩ := hall
    rw [setupEnv_ok_of cfg w e a1 a2 a3 a4 a5] at h
    injection h with h'
    exact h'.symm

lemma run_backup_isSome (cfg : Config) (r : CmdResult) :
    (runResticCommand cfg.resticPath (backupArgs cfg) r).isSome = true := by
  cases h : r.ok
  · rw [run_backup_err cfg r h]
    rfl
  · rw [run_backup_ok cfg r h]
    rfl

lemma run_forget_isSome (cfg : Config) (r : CmdResult) :
    (runResticCommand cfg.resticPath forgetArgs r).isSome = true := by
  cases h : r.ok
  · rw [run_forget_err cfg r h]
    rfl
  · rw [run_forget_ok cfg r h]
    rfl

lemma main_no_panic (cfg : Config) (w : World) (env0 : Env) :
    (main cfg w env0).panicked = false := by
  unfold main
  repeat' split
  all_goals try rfl
  all_goals exfalso
  · have := run_backup_isSome cfg w.backupResult
    simp_all
  · have := run_forget_isSome cfg w.forgetResult
    rcases hro : runResticCommand cfg.resticPath forgetArgs w.forgetResult with _ | ⟨fl, fok⟩ <;>
      rcases hc : cfg.cleanupOldBackups <;> simp_all

lemma main_invocations_cases (cfg : Config) (w : World) (env0 : Env) :
    (main cfg w env0).invocations = [] ∨
    (main cfg w env0).invocations = [backupArgs cfg] ∨
    (main cfg w env0).invocations = [backupArgs cfg, forgetArgs] := by
  unfold main
  repeat' split
  all_goals try (left; rfl)
  all_goals try (right; left; rfl)
  all_goals try (right; right; rfl)
  rcases hro : runResticCommand cfg.resticPath forgetArgs w.forgetResult with _ | ⟨f1, f2⟩ <;>
    rcases hc : cfg.cleanupOldBackups <;> simp_all

lemma main_envPassed_eq (cfg : Config) (w : World) (env0 : Env) (env1 : Env)
    (h : (main cfg w env0).envPassed = some env1) :
    setupEnv cfg w env0 = SetupResult.ok env1 := by
  unfold main at h
  revert h
  repeat' split
  all_goals intro h
  all_goals simp_all

/-! ### Claim theorems -/

/-- C1, counterexample: on a run where the lock is acquired and the backup
command fails, `main` leaves through `os.Exit(1)`, which does not run
deferred functions, so the deferred `fileLock.Unlock()` never executes —
the lock is not released before the process ends on that exit path. -/
theorem c1_counterexample :
    (main cfgA worldBackupFail env0A).lockAcquired = true ∧
    (main cfgA worldBackupFail env0A).deferredUnlockRan = false ∧
    (main cfgA worldBackupFail env0A).viaOsExit = true ∧
    (main cfgA worldBackupFail env0A).exitCode = 1 := by
  exact ⟨rfl, rfl, rfl, rfl⟩

/-- C1, amended: the deferred unlock runs exactly when the run leaves `main`
by a normal return (success, missing executable, power-check failure, power
skip); on the paths that call `os.Exit`/`log.Fatal` (lock acquisition error,
fatal secret-fetch failure, backup failure) the deferred release is skipped,
and an acquired lock is then only released by the operating system when the
process terminates. -/
theorem c1_deferred_release (cfg : Config) (w : World) (env0 : Env) :
    (main cfg w env0).deferredUnlockRan =
      ((main cfg w env0).lockAcquired && !(main cfg w env0).viaOsExit) := by
  unfold main
  repeat' split
  all_goals rfl

/-- C3, counterexample: when the restic executable cannot be resolved the
run does stop without any backup attempt, but `main` returns normally, so
the process exits with status 0, not a non-zero failure code. -/
theorem c3_counterexample :
    (main cfgA worldNoExe env0A).exitCode = 0 ∧
    (main cfgA worldNoExe env0A).invocations = [] := by
  exact ⟨rfl, rfl⟩

/-- C3, amended: if the lock is acquired and the executable does not resolve
on the search path, the run logs an error and stops without attempting any
backup, exiting with status 0 (a normal return from `main`). -/
theorem c3_missing_executable (cfg : Config) (w : World) (env0 : Env)
    (hlock : w.lockResult = LockResult.acquired)
    (hlook : w.lookPathOk = false) :
    (main cfg w env0).exitCode = 0 ∧
    (main cfg w env0).viaOsExit = false ∧
    (main cfg w env0).invocations = [] ∧
    (main cfg w env0).secretsFetched = 0 ∧
    (main cfg w env0).metricsAttempted = false ∧
    (main cfg w env0).events =
      [⟨Level.error, [("cmd", cfg.resticPath)], "cannot find the restic command"⟩] := by
  simp [main, hlock, hlook]

/-- C3, witness for the amended theorem at a concrete run. -/
theorem c3_missing_executable_witness :
    (main cfgA worldNoExe env0A).exitCode = 0 ∧
    (main cfgA worldNoExe env0A).viaOsExit = false := by
  have h := c3_missing_executable cfgA worldNoExe env0A rfl rfl
  exact ⟨h.1, h.2.1⟩

/-- C4: a busy lock makes the run warn and exit 0 with no further side
effects (no restic invocation, no secret fetch, no metrics attempt), while a
lock acquisition error makes it exit 1. -/
theorem c4_lock_contention (cfg : Config) (w : World) (env0 : Env) :
    (w.lockResult = LockResult.busy →
      (main cfg w env0).exitCode = 0 ∧
      (main cfg w env0).viaOsExit = false ∧
      (main cfg w env0).events =
        [⟨Level.warn, [], "Another instance of the program is already running. Exiting."⟩] ∧
      (main cfg w env0).invocations = [] ∧
      (main cfg w env0).secretsFetched = 0 ∧
      (main cfg w env0).metricsAttempted = false) ∧
    (∀ msg, w.lockResult = LockResult.lockError msg →
      (main cfg w env0).exitCode = 1 ∧
      (main cfg w env0).invocations = [] ∧
      (main cfg w env0).secretsFetched = 0 ∧
      (main cfg w env0).metricsAttempted = false) := by
  constructor
  · intro h
    simp [main, h]
  · intro msg h
    simp [main, h]

/-- C4, witness: the busy and error cases at concrete runs. -/
theorem c4_lock_contention_witness :
    (main cfgA worldBusy env0A).exitCode = 0 ∧
    (main cfgA worldBusy env0A).invocations = [] ∧
    (main cfgA worldLockErr env0A).exitCode = 1 := by
  refine ⟨?_, ?_, ?_⟩
  · exact ((c4_lock_contention cfgA worldBusy env0A).1 rfl).1
  · exact ((c4_lock_contention cfgA worldBusy env0A).1 rfl).2.2.2.1
  · exact ((c4_lock_contention cfgA worldLockErr env0A).2 "permission denied" rfl).1

/-- C5: with `require_ac_power` set and the power check reporting battery
power, the run warns and exits 0 without invoking the engine, fetching
secrets, or attempting a metrics push. -/
theorem c5_power_skip (cfg : Config) (w : World) (env0 : Env)
    (hreq : cfg.requireAcPower = true)
    (hlock : w.lockResult = LockResult.acquired)
    (hlook : w.lookPathOk = true)
    (hpow : isOnPower w.pmset = Except.ok false) :
    (main cfg w env0).exitCode = 0 ∧
    (main cfg w env0).viaOsExit = false ∧
    (main cfg w env0).invocations = [] ∧
    (main cfg w env0).secretsFetched = 0 ∧
    (main cfg w env0).metricsAttempted = false ∧
    (main cfg w env0).events =
      [⟨Level.warn, [], "The system is not running on AC power. Skipping backup."⟩] := by
  simp [main, hlock, hlook, hpow, hreq]

/-- C5, witness at a concrete on-battery run. -/
theorem c5_power_skip_witness :
    (main cfgA worldOnBattery env0A).exitCode = 0 ∧
    (main cfgA worldOnBattery env0A).invocations = [] := by
  have h := c5_power_skip cfgA worldOnBattery env0A rfl rfl rfl rfl
  exact ⟨h.1, h.2.2.1⟩

/-- C6: on a reachable backup invocation whose command exits non-zero, every
non-empty stderr line is logged exactly once at error level, the run exits 1
(via `os.Exit`), only the backup invocation was spawned (no forget), and no
metrics push is attempted. -/
theorem c6_backup_failure (cfg : Config) (w : World) (env0 : Env) (ac : Bool)
    (hlock : w.lockResult = LockResult.acquired)
    (hlook : w.lookPathOk = true)
    (hpow : isOnPower w.pmset = Except.ok ac)
    (hgate : (cfg.requireAcPower && !ac) = false)
    (h1 : w.secRegion.ok = true) (h2 : w.secAccessKeyId.ok = true)
    (h3 : w.secSecretAccessKey.ok = true) (h4 : w.secRepository.ok = true)
    (h5 : w.secPassword.ok = true)
    (hb : w.backupResult.ok = false) :
    (main cfg w env0).exitCode = 1 ∧
    (main cfg w env0).viaOsExit = true ∧
    (main cfg w env0).invocations = [backupArgs cfg] ∧
    (main cfg w env0).metricsAttempted = false ∧
    ∀ l, ((main cfg w env0).events).count (lineEvent Level.error cfg.resticPath "backup" l) =
      (nonEmptyLines w.backupResult.stderr).count l := by
  have hs := setupEnv_ok_of cfg w env0 h1 h2 h3 h4 h5
  have hrb := run_backup_err cfg w.backupResult hb
  have hmain : main cfg w env0 =
      { exitCode := 1, viaOsExit := true, panicked := false, lockAcquired := true,
        deferredUnlockRan := false,
        events := ((nonEmptyLines w.backupResult.stderr).map
            (lineEvent Level.error cfg.resticPath "backup")
          ++ [execFailEvent cfg.resticPath "backup" w.backupResult.errMsg]) ++
          [⟨Level.error, [("cmd", cfg.resticPath), ("command", "backup")], "Backup failed"⟩],
        invocations := [backupArgs cfg], envPassed := some (envAfterSetup w env0),
        secretsFetched := 5, metricsAttempted := false, metricsPushed := false } := by
    simp [main, hlock, hlook, hpow, hgate, hs, hrb]
  rw [hmain]
  refine ⟨rfl, rfl, rfl, rfl, ?_⟩
  intro l
  simp only [List.count_append]
  rw [List.count_map_of_injective _ _ (lineEvent_injective Level.error cfg.resticPath "backup") l]
  have hz1 : List.count (lineEvent Level.error cfg.resticPath "backup" l)
      [execFailEvent cfg.resticPath "backup" w.backupResult.errMsg] = 0 := by
    simp [List.count_eq_zero, lineEvent, execFailEvent]
  have hz2 : List.count (lineEvent Level.error cfg.resticPath "backup" l)
      [⟨Level.error, [("cmd", cfg.resticPath), ("command", "backup")], "Backup failed"⟩] = 0 := by
    simp [List.count_eq_zero, lineEvent]
  rw [hz1, hz2]
  omega

/-- C6, witness: Scenario E — backup exits 2 with stderr "repository locked";
the line is logged once at error level and the run exits 1. -/
theorem c6_backup_failure_witness :
    (main cfgA worldBackupFail env0A).exitCode = 1 ∧
    (main cfgA worldBackupFail env0A).metricsAttempted = false ∧
    (main cfgA worldBackupFail env0A).events.count
      (lineEvent Level.error cfgA.resticPath "backup" "repository locked") = 1 := by
  have h := c6_backup_failure cfgA worldBackupFail env0A true
    rfl rfl rfl rfl rfl rfl rfl rfl rfl rfl
  refine ⟨h.1, h.2.2.2.1, ?_⟩
  exact (h.2.2.2.2 "repository locked").trans (by decide)

/-- C7, counterexample: a keychain fetch that succeeds with EMPTY output is
not treated as fatal — the run continues, invokes the backup engine, and
passes `RESTIC_PASSWORD=""` in its environment. -/
theorem c7_counterexample :
    (main cfgA worldEmptySecret env0A).invocations = [backupArgs cfgA, forgetArgs] ∧
    (main cfgA worldEmptySecret env0A).viaOsExit = false ∧
    (main cfgA worldEmptySecret env0A).exitCode = 0 ∧
    ((main cfgA worldEmptySecret env0A).envPassed.map (fun e => e "RESTIC_PASSWORD")) =
      some (some "") := by
  exact ⟨rfl, rfl, rfl, rfl⟩

/-- C7, amended: a secret fetch whose `security` command errors (timeout or
non-zero exit) is fatal — the process terminates through `log.Fatal` with
exit code 1, without invoking the backup engine and without a metrics push;
but an empty successful result is not detected and the run continues. -/
theorem c7_secret_failure_fatal (cfg : Config) (w : World) (env0 : Env) (ac : Bool)
    (hlock : w.lockResult = LockResult.acquired)
    (hlook : w.lookPathOk = true)
    (hpow : isOnPower w.pmset = Except.ok ac)
    (hgate : (cfg.requireAcPower && !ac) = false)
    (hfail : (w.secRegion.ok && w.secAccessKeyId.ok && w.secSecretAccessKey.ok &&
        w.secRepository.ok && w.secPassword.ok) = false) :
    (main cfg w env0).exitCode = 1 ∧
    (main cfg w env0).viaOsExit = true ∧
    (main cfg w env0).deferredUnlockRan = false ∧
    (main cfg w env0).invocations = [] ∧
    (main cfg w env0).envPassed = none ∧
    (main cfg w env0).metricsAttempted = false := by
  obtain ⟨ev, n, hs⟩ := setupEnv_fatal_of cfg w env0 hfail
  simp [main, hlock, hlook, hpow, hgate, hs]

/-- C7, witness for the amended theorem: the repository fetch fails, the
process aborts before any engine invocation. -/
theorem c7_secret_failure_fatal_witness :
    (main cfgA worldSecretFail env0A).exitCode = 1 ∧
    (main cfgA worldSecretFail env0A).invocations = [] := by
  have h := c7_secret_failure_fatal cfgA worldSecretFail env0A true rfl rfl rfl rfl rfl
  exact ⟨h.1, h.2.2.2.1⟩

/-- C8: when the backup succeeds, cleanup is enabled and the forget command
fails, the failure is only logged — the metrics push is still attempted, the
completion event is still logged, and the run exits 0 by normal return. -/
theorem c8_forget_failure_nonfatal (cfg : Config) (w : World) (env0 : Env) (ac : Bool)
    (hlock : w.lockResult = LockResult.acquired)
    (hlook : w.lookPathOk = true)
    (hpow : isOnPower w.pmset = Except.ok ac)
    (hgate : (cfg.requireAcPower && !ac) = false)
    (h1 : w.secRegion.ok = true) (h2 : w.secAccessKeyId.ok = true)
    (h3 : w.secSecretAccessKey.ok = true) (h4 : w.secRepository.ok = true)
    (h5 : w.secPassword.ok = true)
    (hb : w.backupResult.ok = true)
    (hc : cfg.cleanupOldBackups = true)
    (hf : w.forgetResult.ok = false) :
    (main cfg w env0).exitCode = 0 ∧
    (main cfg w env0).viaOsExit = false ∧
    (main cfg w env0).metricsAttempted = true ∧
    (⟨Level.error, [("cmd", cfg.resticPath), ("command", "forget")], "Forget failed"⟩ ∈
      (main cfg w env0).events) ∧
    (⟨Level.info, [("duration", w.durationStr)], "Backup completed successfully"⟩ ∈
      (main cfg w env0).events) := by
  have hs := setupEnv_ok_of cfg w env0 h1 h2 h3 h4 h5
  have hrb := run_backup_ok cfg w.backupResult hb
  have hrf := run_forget_err cfg w.forgetResult hf
  simp [main, hlock, hlook, hpow, hgate, hs, hrb, hrf, hc]

/-- C8, witness: Scenario F at a concrete run. -/
theorem c8_forget_failure_nonfatal_witness :
    (main cfgA worldForgetFail env0A).exitCode = 0 ∧
    (main cfgA worldForgetFail env0A).metricsAttempted = true := by
  have h := c8_forget_failure_nonfatal cfgA worldForgetFail env0A true
    rfl rfl rfl rfl rfl rfl rfl rfl rfl rfl rfl rfl
  exact ⟨h.1, h.2.2.1⟩

/-- C2, counterexample: on a SUCCEEDING run whose stderr is non-empty, no
stderr line is logged at all (the runner only walks stderr in the failure
branch), refuting "every non-empty stderr line is logged regardless of the
exit status" and "each non-empty output line is logged exactly once". -/
theorem c2_counterexample :
    runResticCommand "/usr/local/bin/restic" ["backup"]
      { ok := true, errMsg := "", stdout := "", stderr := "warning: repo nearly full" } =
      some ([], true) ∧
    nonEmptyLines "warning: repo nearly full" = ["warning: repo nearly full"] := by
  exact ⟨rfl, rfl⟩

/-- C2, amended: with a non-empty argument list, on a failing exit every
non-empty stderr line is logged exactly once at error level (and every
emitted event is error-level, so no stdout line is logged); on a zero exit
every non-empty stdout line is logged exactly once at info level (and every
emitted event is info-level, so no stderr line is logged — stderr lines are
only logged on failing exits). -/
theorem c2_line_logging (path op : String) (rest : List String) (r : CmdResult) :
    ∃ evs, runResticCommand path (op :: rest) r = some (evs, r.ok) ∧
      (r.ok = false →
        (∀ l, evs.count (lineEvent Level.error path op l) =
            (nonEmptyLines r.stderr).count l) ∧
        (∀ ev ∈ evs, ev.level = Level.error)) ∧
      (r.ok = true →
        (∀ l, evs.count (lineEvent Level.info path op l) =
            (nonEmptyLines r.stdout).count l) ∧
        (∀ ev ∈ evs, ev.level = Level.info)) := by
  cases hok : r.ok with
  | false =>
    refine ⟨_, runResticCommand_cons_err path op rest r hok, ?_, ?_⟩
    · intro _
      constructor
      · intro l
        simp only [List.count_append]
        rw [List.count_map_of_injective _ _ (lineEvent_injective Level.error path op) l]
        have hz : List.count (lineEvent Level.error path op l)
            [execFailEvent path op r.errMsg] = 0 := by
          simp [List.count_eq_zero, lineEvent, execFailEvent]
        rw [hz]
        omega
      · intro ev hev
        rcases List.mem_append.mp hev with h | h
        · obtain ⟨a, _, rfl⟩ := List.mem_map.mp h
          rfl
        · simp only [List.mem_singleton] at h
          subst h
          rfl
    · intro habs
      simp at habs
  | true =>
    refine ⟨_, runResticCommand_cons_ok path op rest r hok, ?_, ?_⟩
    · intro habs
      simp at habs
    · intro _
      constructor
      · intro l
        rw [List.count_map_of_injective _ _ (lineEvent_injective Level.info path op) l]
      · intro ev hev
        obtain ⟨a, _, rfl⟩ := List.mem_map.mp hev
        rfl

/-- C2, witness for the amended theorem: a failing run with stderr
"repository locked" logs that line exactly once. -/
theorem c2_line_logging_witness :
    (runResticCommand "/usr/local/bin/restic" ["backup", "-q"]
        { ok := false, errMsg := "exit status 2", stdout := "", stderr := "repository locked" }).map
      (fun p => (p.1.count (lineEvent Level.error "/usr/local/bin/restic" "backup"
        "repository locked"), p.2)) = some (1, false) := by
  obtain ⟨evs, heq, hfail, _⟩ := c2_line_logging "/usr/local/bin/restic" "backup" ["-q"]
    { ok := false, errMsg := "exit status 2", stdout := "", stderr := "repository locked" }
  rw [heq]
  have hc2 : List.count "repository locked" (nonEmptyLines "repository locked") = 1 := by
    decide
  have hcount := ((hfail rfl).1 "repository locked").trans hc2
  simp [hcount]

/-- C9: tagging with `args[0]` is total whenever the argument list is
non-empty (and the model's panic branch is really reachable on an empty
argument list with a failing command); in `main` every restic invocation's
argument list starts with "backup" or "forget", so no run of `main`
panics. -/
theorem c9_operation_tag_safety :
    (∀ (path : String) (args : List String) (r : CmdResult),
        args ≠ [] → (runResticCommand path args r).isSome = true) ∧
    (∀ (path : String) (r : CmdResult),
        r.ok = false → runResticCommand path [] r = none) ∧
    (∀ (cfg : Config) (w : World) (env0 : Env),
        (main cfg w env0).panicked = false ∧
        ∀ a ∈ (main cfg w env0).invocations,
          a.head? = some "backup" ∨ a.head? = some "forget") := by
  refine ⟨?_, ?_, ?_⟩
  · intro path args r hne
    match args, hne with
    | op :: rest, _ =>
      cases hok : r.ok
      · rw [runResticCommand_cons_err path op rest r hok]
        rfl
      · rw [runResticCommand_cons_ok path op rest r hok]
        rfl
  · intro path r h
    simp [runResticCommand, h]
  · intro cfg w env0
    refine ⟨main_no_panic cfg w env0, ?_⟩
    intro a ha
    rcases main_invocations_cases cfg w env0 with h | h | h <;> rw [h] at ha
    · simp at ha
    · simp only [List.mem_singleton] at ha
      subst ha
      left
      rfl
    · simp only [List.mem_cons, List.mem_singleton, List.not_mem_nil, or_false] at ha
      rcases ha with ha | ha
      · subst ha
        left
        rfl
      · subst ha
        right
        rfl

/-- C9, witness: the runner is total on concrete non-empty arguments, does
index out of bounds on empty arguments, and the backup invocation of a
concrete full run is tagged "backup". -/
theorem c9_operation_tag_safety_witness :
    (runResticCommand "/usr/local/bin/restic" ["forget", "-q"]
      { ok := false, errMsg := "exit status 1", stdout := "", stderr := "" }).isSome = true ∧
    runResticCommand "/usr/local/bin/restic" []
      { ok := false, errMsg := "exit status 1", stdout := "", stderr := "" } = none ∧
    (main cfgA worldA env0A).panicked = false ∧
    ((backupArgs cfgA).head? = some "backup" ∨ (backupArgs cfgA).head? = some "forget") := by
  refine ⟨?_, ?_, ?_, ?_⟩
  · exact c9_operation_tag_safety.1 "/usr/local/bin/restic" ["forget", "-q"] _ (by simp)
  · exact c9_operation_tag_safety.2.1 "/usr/local/bin/restic" _ rfl
  · exact (c9_operation_tag_safety.2.2 cfgA worldA env0A).1
  · exact (c9_operation_tag_safety.2.2 cfgA worldA env0A).2 (backupArgs cfgA)
      (by rw [show (main cfgA worldA env0A).invocations = [backupArgs cfgA, forgetArgs] from rfl]
          exact List.mem_cons_self _ _)

/-- C10: the environment handed to every engine subprocess is the process
environment after credential setup — the five fixed variables carry the
trimmed fetched secrets, and every other variable is exactly as in the
initial (inherited) process environment. -/
theorem c10_env_frame (cfg : Config) (w : World) (env0 : Env) (env1 : Env)
    (h : (main cfg w env0).envPassed = some env1) :
    (env1 "AWS_DEFAULT_REGION" = some (trimSpace w.secRegion.output) ∧
     env1 "AWS_ACCESS_KEY_ID" = some (trimSpace w.secAccessKeyId.output) ∧
     env1 "AWS_SECRET_ACCESS_KEY" = some (trimSpace w.secSecretAccessKey.output) ∧
     env1 "RESTIC_REPOSITORY" = some (trimSpace w.secRepository.output) ∧
     env1 "RESTIC_PASSWORD" = some (trimSpace w.secPassword.output)) ∧
    (∀ k, k ≠ "AWS_DEFAULT_REGION" → k ≠ "AWS_ACCESS_KEY_ID" →
      k ≠ "AWS_SECRET_ACCESS_KEY" → k ≠ "RESTIC_REPOSITORY" → k ≠ "RESTIC_PASSWORD" →
      env1 k = env0 k) := by
  have hset := main_envPassed_eq cfg w env0 env1 h
  have he : env1 = envAfterSetup w env0 := setupEnv_ok_elim cfg w env0 env1 hset
  subst he
  constructor
  · refine ⟨?_, ?_, ?_, ?_, ?_⟩ <;> simp [envAfterSetup, setenv]
  · intro k hk1 hk2 hk3 hk4 hk5
    simp [envAfterSetup, setenv, hk1, hk2, hk3, hk4, hk5]

/-- C10, witness: on a concrete full run, the engine's environment carries
the secrets and still carries the inherited HOME variable. -/
theorem c10_env_frame_witness :
    envAfterA "RESTIC_PASSWORD" = some "pw123" ∧
    envAfterA "AWS_DEFAULT_REGION" = some "eu-west-1" ∧
    envAfterA "HOME" = some "/root" := by
  have h := c10_env_frame cfgA worldA env0A envAfterA rfl
  refine ⟨?_, ?_, ?_⟩
  · exact (h.1.2.2.2.2).trans rfl
  · exact (h.1.1).trans rfl
  · exact h.2 "HOME" (by decide) (by decide) (by decide) (by decide) (by decide)

end ResticWrapper
